import Mathlib

/-!
Shallow embedding of the grading pipeline of `gradescope_report2.ts`
(the most evolved revision of the result-processing scripts), together
with proofs about its wheat/chaff grading logic.

JavaScript semantics that matter here are modelled explicitly:
* `arr[-1]` in JavaScript is property access with a key that no array
  has, so it evaluates to `undefined`; we model element lookups that can
  miss with `Option`, and `jsIndex` returns `none` for negative indices.
* A JS `Set` is modelled as a `Finset` (membership is all the code uses).
* `throw` inside an otherwise pure function is modelled by returning
  `Option` with `none` for the thrown case.
* The `Err` enum values stringify to their names.
-/

/-- The error enum of the execution phase (`enum Err` in the source). -/
inductive Err
  | Unknown
  | Compilation
  | OutOfMemory
  | Timeout
  | Runtime
deriving DecidableEq, Repr

/-- String value of an `Err` enum member, as JS template interpolation produces. -/
def Err.str : Err → String
  | .Unknown => "Unknown"
  | .Compilation => "Compilation"
  | .OutOfMemory => "OutOfMemory"
  | .Timeout => "Timeout"
  | .Runtime => "Runtime"

/-- One test outcome (`interface Test`): a location and whether it passed. -/
structure Test where
  loc : String
  passed : Bool
deriving DecidableEq, Repr

/-- One test block outcome (`interface TestBlock`). -/
structure TestBlock where
  name : String
  loc : String
  error : Bool
  tests : List Test
deriving DecidableEq, Repr

/-- Execution result (`interface Result`): exactly one of `Ok` / `Err` is
populated in well-typed input, so it is modelled as a sum. -/
inductive Result
  | Ok : List TestBlock → Result
  | Err : Err → Result
deriving DecidableEq, Repr

/-- One execution record (`interface Evaluation`). -/
structure Evaluation where
  code : String
  tests : String
  result : Result
deriving DecidableEq, Repr

/-- One entry of the output report (`interface GradescopeTestReport`). -/
structure GradescopeTestReport where
  name : String
  score : Int
  max_score : Int
  output : String
  visibility : String
deriving DecidableEq, Repr

/-- The overall output report (`interface GradescopeReport`). -/
structure GradescopeReport where
  visibility : String
  stdout_visibility : String
  tests : List GradescopeTestReport
deriving DecidableEq, Repr

/-- JavaScript array indexing `xs[i]` with an `Int` index: a negative index is
an absent property, hence `undefined` (`none`); otherwise positional lookup. -/
def jsIndex {α : Type} (xs : List α) (i : Int) : Option α :=
  if i < 0 then none else xs.get? i.toNat

/-- JavaScript `str.split("/")` on the character list: splits at every
occurrence of the separator, keeping empty pieces. -/
def splitOnSlash : List Char → List (List Char)
  | [] => [[]]
  | c :: cs =>
    if c == '/' then [] :: splitOnSlash cs
    else
      match splitOnSlash cs with
      | [] => [[c]]
      | p :: ps => (c :: p) :: ps

/-- JavaScript `str.split("/")` producing strings. -/
def jsSplitSlash (s : String) : List String :=
  (splitOnSlash s.data).map String.mk

/-- Whether the character list starts with the given pattern. -/
def headMatches : List Char → List Char → Bool
  | _, [] => true
  | [], _ :: _ => false
  | c :: cs, p :: ps => c == p && headMatches cs ps

/-- Whether the pattern occurs anywhere in the character list. -/
def containsSeg (pat : List Char) : List Char → Bool
  | [] => pat.isEmpty
  | c :: cs => headMatches (c :: cs) pat || containsSeg pat cs

/-- JavaScript `s.includes(pat)`. -/
def strIncludes (s pat : String) : Bool :=
  containsSeg pat.data s.data

/-- Embeds `get_loc_name`: `loc.split("/")[-1]`. The `[-1]` index makes the
JS function return `undefined` for every input, modelled as `none`. -/
def get_loc_name (loc : String) : Option String :=
  jsIndex (jsSplitSlash loc) (-1)

/-- What the doc comment on `get_loc_name` in the source says it computes:
the last `/`-separated segment of the location
(e.g. `"file:///x/tests.arr:8:0-19:3"` to `"tests.arr:8:0-19:3"`). -/
def get_loc_name_documented (loc : String) : String :=
  (jsSplitSlash loc).getLastD ""

/-- Embeds `get_file_name`: Node `path.parse(path_name).base`, the final
path segment (POSIX separators). -/
def get_file_name (path_name : String) : String :=
  (jsSplitSlash path_name).getLastD ""

/-- Embeds `partition_results`: classify records by substring of `code`,
checking "wheat" before "chaff", preserving relative order. -/
def partition_results : List Evaluation → List Evaluation × List Evaluation × List Evaluation
  | [] => ([], [], [])
  | r :: rest =>
    let (t, w, c) := partition_results rest
    if strIncludes r.code "wheat" then (t, r :: w, c)
    else if strIncludes r.code "chaff" then (t, w, r :: c)
    else (r :: t, w, c)

/-- Scoring of one block inside `generate_functionality_report`'s loop. -/
def gradeBlock (block : TestBlock) : GradescopeTestReport :=
  if block.error then
    { name := block.name, score := 0, max_score := 1,
      output := "Block errored.", visibility := "after_published" }
  else
    let total_tests := block.tests.length
    let passed_tests := (block.tests.filter (fun t => t.passed)).length
    { name := block.name,
      score := if passed_tests = total_tests then 1 else 0,
      max_score := 1,
      output := if passed_tests = total_tests
        then "Passed all " ++ toString total_tests ++ " tests in this block!"
        else "Missing " ++ toString (total_tests - passed_tests) ++ " tests in this block",
      visibility := "after_published" }

/-- Embeds `generate_functionality_report`. -/
def generate_functionality_report (test_result : Evaluation) : List GradescopeTestReport :=
  match test_result.result with
  | Result.Err e =>
    [{ name := get_file_name test_result.code, score := 0, max_score := 1,
       output := "Error: " ++ e.str, visibility := "visible" }]
  | Result.Ok blocks => blocks.map gradeBlock

/-- Failed-test entries contributed by one block inside
`get_invalid_tests_and_blocks`: `(get_loc_name test.loc, block.name)` for each
test with `passed = false`, in order. -/
def blockInvalidTests (block : TestBlock) : List (Option String × String) :=
  (block.tests.filter (fun t => !t.passed)).map (fun t => (get_loc_name t.loc, block.name))

/-- Errored-block entry contributed by one block inside
`get_invalid_tests_and_blocks`. -/
def blockInvalidBlocks (block : TestBlock) : List (Option String × String) :=
  if block.error then [(get_loc_name block.loc, block.name)] else []

/-- Embeds `get_invalid_tests_and_blocks`: `none` is the JS `null` return
(valid wheat); an `Err` result returns two empty lists. -/
def get_invalid_tests_and_blocks (wheat : Evaluation) :
    Option (List (Option String × String) × List (Option String × String)) :=
  match wheat.result with
  | Result.Err _ => some ([], [])
  | Result.Ok blocks =>
    let invalid_tests := blocks.flatMap blockInvalidTests
    let invalid_blocks := blocks.flatMap blockInvalidBlocks
    if invalid_tests.length = 0 ∧ invalid_blocks.length = 0 then none
    else some (invalid_tests, invalid_blocks)

/-- Embeds `generate_wheat_report`; `none` models the
`throw "Wheat failed but no reason given."` branch. -/
def generate_wheat_report (wheat_result : Evaluation) : Option GradescopeTestReport :=
  match get_invalid_tests_and_blocks wheat_result with
  | none =>
    some { name := get_file_name wheat_result.code, score := 1, max_score := 1,
           output := "Passed wheat!", visibility := "after_published" }
  | some (invalid_tests, invalid_blocks) =>
    let output? : Option String :=
      match wheat_result.result with
      | Result.Err e => some ("Wheat errored; " ++ e.str)
      | Result.Ok _ =>
        match invalid_tests, invalid_blocks with
        | p :: _, _ => some ("Wheat failed test in block " ++ p.2)
        | [], p :: _ => some ("Wheat caused error in block " ++ p.2)
        | [], [] => none
    output?.map (fun output =>
      { name := get_file_name wheat_result.code, score := 0, max_score := 1,
        output := output, visibility := "after_published" })

/-- Invalid test locations one wheat adds to `all_invalid_tests` in the
closure part of `generate_chaff_report`. -/
def wheatInvalidTestLocs (w : Evaluation) : Finset (Option String) :=
  match get_invalid_tests_and_blocks w with
  | none => ∅
  | some (ts, _) => (ts.map Prod.fst).toFinset

/-- Invalid block locations one wheat adds to `all_invalid_blocks`. -/
def wheatInvalidBlockLocs (w : Evaluation) : Finset (Option String) :=
  match get_invalid_tests_and_blocks w with
  | none => ∅
  | some (_, bs) => (bs.map Prod.fst).toFinset

/-- The `all_invalid_tests` set accumulated over all wheats. -/
def all_invalid_tests (wheat_results : List Evaluation) : Finset (Option String) :=
  wheat_results.foldl (fun acc w => acc ∪ wheatInvalidTestLocs w) ∅

/-- The `all_invalid_blocks` set accumulated over all wheats. -/
def all_invalid_blocks (wheat_results : List Evaluation) : Finset (Option String) :=
  wheat_results.foldl (fun acc w => acc ∪ wheatInvalidBlockLocs w) ∅

/-- Inner test loop of the chaff scan: first failed test whose location is not
masked yields the catch message. -/
def findCatchInTests (tests_set : Finset (Option String)) (bname : String) :
    List Test → Option String
  | [] => none
  | t :: rest =>
    if t.passed = false ∧ get_loc_name t.loc ∉ tests_set then
      some ("Chaff caught; test failed in block " ++ bname ++ "!")
    else findCatchInTests tests_set bname rest

/-- Block loop of the chaff scan: an unmasked errored block is reported first;
otherwise the block's tests are scanned (also when the block errored but its
location is masked, mirroring the source's lack of an `else`). -/
def findCatchInBlocks (tests_set blocks_set : Finset (Option String)) :
    List TestBlock → Option String
  | [] => none
  | b :: rest =>
    if b.error = true ∧ get_loc_name b.loc ∉ blocks_set then
      some ("Chaff caught; error in block " ++ b.name ++ "!")
    else
      match findCatchInTests tests_set b.name b.tests with
      | some msg => some msg
      | none => findCatchInBlocks tests_set blocks_set rest

/-- Embeds the curried `generate_chaff_report` applied to one chaff. -/
def generate_chaff_report (wheat_results : List Evaluation)
    (chaff_result : Evaluation) : GradescopeTestReport :=
  let tests_set := all_invalid_tests wheat_results
  let blocks_set := all_invalid_blocks wheat_results
  match chaff_result.result with
  | Result.Err e =>
    { name := get_file_name chaff_result.code, score := 1, max_score := 1,
      output := "Chaff caught; error: " ++ e.str ++ "!",
      visibility := "after_published" }
  | Result.Ok blocks =>
    match findCatchInBlocks tests_set blocks_set blocks with
    | some msg =>
      { name := get_file_name chaff_result.code, score := 1, max_score := 1,
        output := msg, visibility := "after_published" }
    | none =>
      { name := get_file_name chaff_result.code, score := 0, max_score := 1,
        output := "Chaff not caught.", visibility := "after_published" }

/-- The weight `point_values.has(name) ? point_values.get(name) : 1` used by
`generate_score_report`; the point table is an association list. -/
def report_weight (point_values : List (String × Int))
    (report : GradescopeTestReport) : Int :=
  match point_values.lookup report.name with
  | some p => p
  | none => 1

/-- Embeds `generate_score_report`. -/
def generate_score_report (reports : List GradescopeTestReport)
    (point_values : List (String × Int)) (name : String) : GradescopeTestReport :=
  let totals := reports.foldl
    (fun (acc : Int × Int) report =>
      let points := report_weight point_values report
      (acc.1 + (if report.score = report.max_score then points else 0), acc.2 + points))
    (0, 0)
  { name := name, score := totals.1, max_score := totals.2,
    output := "", visibility := "hidden" }

/-- Embeds `generate_overall_report`. -/
def generate_overall_report (all_reports : List GradescopeTestReport) : GradescopeReport :=
  { visibility := "after_published", stdout_visibility := "after_published",
    tests := all_reports }

/-- Sequential mapping of `generate_wheat_report` over the wheats as `main`
does; the first throw (if any) aborts the run, modelled by `none`. -/
def wheat_reports_of : List Evaluation → Option (List GradescopeTestReport)
  | [] => some []
  | w :: rest =>
    match generate_wheat_report w, wheat_reports_of rest with
    | some r, some rs => some (r :: rs)
    | _, _ => none

/-- Total version of `generate_wheat_report`, used to state what `main`
produces; sound because the throw branch is proved unreachable. -/
def wheat_report_total (w : Evaluation) : GradescopeTestReport :=
  (generate_wheat_report w).getD
    { name := "", score := 0, max_score := 0, output := "", visibility := "" }

/-- Block grading as the spec words it: score 1 iff every test in the block
passed; used to compare against the count-based `gradeBlock` from the source. -/
def gradeBlockSpec (block : TestBlock) : GradescopeTestReport :=
  if block.error then
    { name := block.name, score := 0, max_score := 1,
      output := "Block errored.", visibility := "after_published" }
  else
    { name := block.name,
      score := if ∀ t ∈ block.tests, t.passed = true then 1 else 0,
      max_score := 1,
      output := if ∀ t ∈ block.tests, t.passed = true
        then "Passed all " ++ toString block.tests.length ++ " tests in this block!"
        else "Missing " ++
          toString (block.tests.length - (block.tests.filter (fun t => t.passed)).length) ++
          " tests in this block",
      visibility := "after_published" }

/-- Embeds the report-building part of `main`: partition, grade, summarize,
assemble. `none` models the run aborting on a wheat-grader throw. -/
def main_report (results : List Evaluation)
    (functionality_points testing_points : List (String × Int)) :
    Option GradescopeReport :=
  let parts := partition_results results
  let test_results := parts.1
  let wheat_results := parts.2.1
  let chaff_results := parts.2.2
  let functionality_reports := test_results.map generate_functionality_report
  match wheat_reports_of wheat_results with
  | none => none
  | some wheat_reports =>
    let chaff_reports := chaff_results.map (generate_chaff_report wheat_results)
    let student_reports := functionality_reports.flatten ++ wheat_reports ++ chaff_reports
    let functionality_scores := functionality_reports.map
      (fun report => generate_score_report report functionality_points "Functionality score")
    let wheat_score := generate_score_report wheat_reports testing_points "Wheats score"
    let chaff_score := generate_score_report chaff_reports testing_points "Chaffs score"
    let ta_reports := functionality_scores ++ [wheat_score, chaff_score]
    some (generate_overall_report (student_reports ++ ta_reports))

/-! Concrete execution records used as witnesses, mirroring the spec's
scenarios: a wheat with one failing test (scenario B), a chaff failing only
at the same location (scenario C), a wheat with an errored block before a
failing test, and a small functionality submission with a passing wheat. -/

/-- Scenario B wheat: one block "Block1" with one failing test. -/
def wheatB : Evaluation :=
  ⟨"docdiff-wheat.arr", "t.arr",
   Result.Ok [⟨"Block1", "t.arr:1:0-5:0", false, [⟨"t.arr:3:0-4:0", false⟩]⟩]⟩

/-- Scenario C chaff: same failing location as `wheatB`, no other failures. -/
def chaffC : Evaluation :=
  ⟨"docdiff-chaff.arr", "t.arr",
   Result.Ok [⟨"Block1", "t.arr:1:0-5:0", false, [⟨"t.arr:3:0-4:0", false⟩]⟩]⟩

/-- A wheat whose first violation in declaration order is an errored block
("Block1"), followed by a failing test in "Block2". -/
def wheatTwoViolations : Evaluation :=
  ⟨"second-wheat.arr", "t.arr",
   Result.Ok [⟨"Block1", "t.arr:1:0-2:0", true, []⟩,
              ⟨"Block2", "t.arr:3:0-9:0", false, [⟨"t.arr:4:0-5:0", false⟩]⟩]⟩

/-- A functionality submission with one non-errored block and no tests. -/
def funcEval : Evaluation :=
  ⟨"sub.arr", "t.arr", Result.Ok [⟨"BlockF", "t.arr:1:0-2:0", false, []⟩]⟩

/-- A wheat that passes everything. -/
def wheatA : Evaluation :=
  ⟨"simple-wheat.arr", "t.arr",
   Result.Ok [⟨"Block1", "t.arr:1:0-2:0", false, [⟨"t.arr:1:1-1:9", true⟩]⟩]⟩

/-! Helper lemmas. -/

/-- The location helper returns `undefined` (`none`) on every input, because
`split("/")[-1]` indexes with a negative key. -/
theorem get_loc_name_eq_none (loc : String) : get_loc_name loc = none := rfl

theorem length_filter_eq_length_iff {α : Type} (p : α → Bool) (l : List α) :
    (l.filter p).length = l.length ↔ ∀ a ∈ l, p a = true := by
  induction l with
  | nil => simp
  | cons a l ih =>
    by_cases h : p a
    · simp [List.filter_cons, h, ih]
    · simp only [List.filter_cons, h, Bool.false_eq_true, if_false, List.length_cons]
      constructor
      · intro hlen
        exfalso
        have hle := List.length_filter_le p l
        omega
      · intro hall
        exact absurd (hall a (List.mem_cons_self a l)) (by simp [h])

/-- The count comparison in the source block grader agrees with the
"every test passed" reading of the spec. -/
theorem gradeBlock_eq_spec (b : TestBlock) : gradeBlock b = gradeBlockSpec b := by
  have hiff := length_filter_eq_length_iff (fun t => t.passed) b.tests
  by_cases hb : b.error
  · simp [gradeBlock, gradeBlockSpec, hb]
  · simp only [gradeBlock, gradeBlockSpec, if_neg hb, GradescopeTestReport.mk.injEq,
      true_and, and_true]
    exact ⟨if_congr hiff rfl rfl, if_congr hiff rfl rfl⟩

/-- C9: the Functionality Grader emits a single visible error item on
`Failure`, and one block item per block (in block order) on `Success`,
scoring a block 1 exactly when every test in it passed, with visibility
`after_published`. -/
theorem functionality_grader_spec (tr : Evaluation) :
    (∀ e, tr.result = Result.Err e →
      generate_functionality_report tr =
        [{ name := get_file_name tr.code, score := 0, max_score := 1,
           output := "Error: " ++ e.str, visibility := "visible" }])
    ∧ (∀ blocks, tr.result = Result.Ok blocks →
        generate_functionality_report tr = blocks.map gradeBlockSpec) := by
  constructor
  · intro e h
    simp [generate_functionality_report, h]
  · intro blocks h
    simp only [generate_functionality_report, h]
    exact List.map_congr_left (fun b _ => gradeBlock_eq_spec b)

/-- Witness for C9 at concrete inputs: a timed-out run and a one-block run. -/
theorem functionality_grader_spec_witness :
    generate_functionality_report ⟨"sub2.arr", "t.arr", Result.Err Err.Timeout⟩ =
      [{ name := get_file_name "sub2.arr", score := 0, max_score := 1,
         output := "Error: " ++ Err.str Err.Timeout, visibility := "visible" }]
    ∧ generate_functionality_report funcEval =
        List.map gradeBlockSpec [⟨"BlockF", "t.arr:1:0-2:0", false, []⟩] :=
  ⟨(functionality_grader_spec ⟨"sub2.arr", "t.arr", Result.Err Err.Timeout⟩).1
      Err.Timeout rfl,
   (functionality_grader_spec funcEval).2 [⟨"BlockF", "t.arr:1:0-2:0", false, []⟩] rfl⟩

/-- Closed form of the score aggregator fold. -/
theorem score_foldl_eq (pv : List (String × Int)) (reports : List GradescopeTestReport)
    (p : Int × Int) :
    reports.foldl
      (fun (acc : Int × Int) report =>
        let points := report_weight pv report
        (acc.1 + (if report.score = report.max_score then points else 0), acc.2 + points))
      p =
    (p.1 + ((reports.filter (fun r => r.score == r.max_score)).map (report_weight pv)).sum,
     p.2 + (reports.map (report_weight pv)).sum) := by
  induction reports generalizing p with
  | nil => simp
  | cons r rs ih =>
    by_cases h : r.score = r.max_score
    · have hbeq : (r.score == r.max_score) = true := beq_iff_eq.mpr h
      simp [List.filter_cons, ih, hbeq, h, add_assoc]
    · have hbeq : (r.score == r.max_score) = false := beq_eq_false_iff_ne.mpr h
      simp [List.filter_cons, ih, hbeq, h, add_assoc]

/-- C8: the Score Aggregator returns the weighted sum of fully-earned items
as `score`, the sum of all weights as `max_score`, an empty message and
hidden visibility; on the empty list both totals are 0. -/
theorem score_aggregator_weighted_sum (reports : List GradescopeTestReport)
    (pv : List (String × Int)) (name : String) :
    generate_score_report reports pv name =
      { name := name,
        score := ((reports.filter (fun r => r.score == r.max_score)).map
          (report_weight pv)).sum,
        max_score := (reports.map (report_weight pv)).sum,
        output := "", visibility := "hidden" }
    ∧ generate_score_report [] pv name =
        { name := name, score := 0, max_score := 0, output := "", visibility := "hidden" } := by
  constructor
  · simp [generate_score_report, score_foldl_eq]
  · rfl

/-- C10: an item whose score and maxScore are both 0 counts as fully earned:
its weight is added to the summary's score as well as to its maxScore. -/
theorem zero_max_score_counts_as_earned (reports : List GradescopeTestReport)
    (pv : List (String × Int)) (name : String) (item : GradescopeTestReport)
    (h0 : item.score = 0) (h1 : item.max_score = 0) :
    (generate_score_report (item :: reports) pv name).score =
      report_weight pv item + (generate_score_report reports pv name).score
    ∧ (generate_score_report (item :: reports) pv name).max_score =
      report_weight pv item + (generate_score_report reports pv name).max_score := by
  have heq : item.score = item.max_score := by rw [h0, h1]
  have hbeq : (item.score == item.max_score) = true := beq_iff_eq.mpr heq
  constructor <;>
    simp [generate_score_report, score_foldl_eq, List.filter_cons, hbeq, heq, add_assoc]

/-- Witness for C10 at a concrete empty-summary item. -/
theorem zero_max_score_counts_as_earned_witness :
    (generate_score_report [⟨"Chaffs score", 0, 0, "", "hidden"⟩] [] "TA").score =
      report_weight [] ⟨"Chaffs score", 0, 0, "", "hidden"⟩ +
        (generate_score_report [] [] "TA").score
    ∧ (generate_score_report [⟨"Chaffs score", 0, 0, "", "hidden"⟩] [] "TA").max_score =
      report_weight [] ⟨"Chaffs score", 0, 0, "", "hidden"⟩ +
        (generate_score_report [] [] "TA").max_score :=
  zero_max_score_counts_as_earned [] [] "TA" ⟨"Chaffs score", 0, 0, "", "hidden"⟩ rfl rfl

/-- C5: a chaff whose execution result is `Failure` is always caught with
score 1 and a message reporting the reason, whatever the wheats were. -/
theorem chaff_failure_always_caught (wheats : List Evaluation) (chaff : Evaluation)
    (e : Err) (h : chaff.result = Result.Err e) :
    generate_chaff_report wheats chaff =
      { name := get_file_name chaff.code, score := 1, max_score := 1,
        output := "Chaff caught; error: " ++ e.str ++ "!",
        visibility := "after_published" } := by
  simp [generate_chaff_report, h]

/-- Witness for C5: an out-of-memory chaff against the scenario-B wheat. -/
theorem chaff_failure_always_caught_witness :
    generate_chaff_report [wheatB] ⟨"oom-chaff.arr", "t.arr", Result.Err Err.OutOfMemory⟩ =
      { name := get_file_name "oom-chaff.arr", score := 1, max_score := 1,
        output := "Chaff caught; error: " ++ Err.str Err.OutOfMemory ++ "!",
        visibility := "after_published" } :=
  chaff_failure_always_caught [wheatB]
    ⟨"oom-chaff.arr", "t.arr", Result.Err Err.OutOfMemory⟩ Err.OutOfMemory rfl

/-- When `get_invalid_tests_and_blocks` returns a pair on a `Success` wheat,
the pair is the scan's two lists and they are not both empty. -/
theorem get_invalid_some_ok (w : Evaluation) (blocks : List TestBlock)
    (ts bs : List (Option String × String)) (hr : w.result = Result.Ok blocks)
    (h : get_invalid_tests_and_blocks w = some (ts, bs)) :
    ts = blocks.flatMap blockInvalidTests ∧ bs = blocks.flatMap blockInvalidBlocks
    ∧ ¬(ts = [] ∧ bs = []) := by
  simp only [get_invalid_tests_and_blocks, hr] at h
  split at h
  · exact absurd h (by simp)
  · rename_i hcond
    rw [Option.some.injEq, Prod.mk.injEq] at h
    obtain ⟨h1, h2⟩ := h
    subst h1
    subst h2
    refine ⟨rfl, rfl, fun hboth => hcond ⟨?_, ?_⟩⟩
    · rw [hboth.1]; rfl
    · rw [hboth.2]; rfl

/-- The wheat grader never reaches the throw branch. -/
theorem wheat_report_isSome (w : Evaluation) :
    (generate_wheat_report w).isSome = true := by
  cases hr : w.result with
  | Err e =>
    have hinv : get_invalid_tests_and_blocks w = some ([], []) := by
      simp [get_invalid_tests_and_blocks, hr]
    simp [generate_wheat_report, hinv, hr]
  | Ok blocks =>
    cases hinv : get_invalid_tests_and_blocks w with
    | none => simp [generate_wheat_report, hinv]
    | some pair =>
      obtain ⟨ts, bs⟩ := pair
      have hne := (get_invalid_some_ok w blocks ts bs hr hinv).2.2
      cases ts with
      | cons p rest => simp [generate_wheat_report, hinv, hr]
      | nil =>
        cases bs with
        | nil => exact absurd ⟨rfl, rfl⟩ hne
        | cons p rest => simp [generate_wheat_report, hinv, hr]

/-- C7: the Wheat Grader is total — its fatal
"Wheat failed but no reason given." branch is unreachable: whenever the wheat
is scored invalid and its result is not a failure, the scan finds a reason. -/
theorem wheat_grader_never_throws (w : Evaluation) :
    (generate_wheat_report w).isSome = true :=
  wheat_report_isSome w

/-- Sequentially grading the wheats never aborts and equals the pointwise
total grading. -/
theorem wheat_reports_of_eq (ws : List Evaluation) :
    wheat_reports_of ws = some (ws.map wheat_report_total) := by
  induction ws with
  | nil => rfl
  | cons w rest ih =>
    obtain ⟨r, hr⟩ := Option.isSome_iff_exists.mp (wheat_report_isSome w)
    simp [wheat_reports_of, hr, ih, wheat_report_total]

/-- C2 (code bug): on the scenario-B wheat the grader does return score 0 with
message "Wheat failed test in block Block1", but the invalidity registry does
not gain the string "t.arr:3:0-4:0": because `get_loc_name` indexes its split
with `[-1]`, it returns `undefined` (`none`) instead of the path-stripped
suffix its own doc comment promises, and the registry stores that. -/
theorem scenarioB_registry_misses_location :
    generate_wheat_report wheatB =
      some { name := "docdiff-wheat.arr", score := 0, max_score := 1,
             output := "Wheat failed test in block Block1",
             visibility := "after_published" }
    ∧ get_loc_name_documented "t.arr:3:0-4:0" = "t.arr:3:0-4:0"
    ∧ get_loc_name "t.arr:3:0-4:0" = none
    ∧ (some "t.arr:3:0-4:0" : Option String) ∉ all_invalid_tests [wheatB]
    ∧ (none : Option String) ∈ all_invalid_tests [wheatB] := by
  refine ⟨rfl, rfl, rfl, ?_, ?_⟩ <;> decide

/-- C3 counterexample: in `wheatTwoViolations` the earliest violation in
declaration order is the errored "Block1", yet the reported reason is the
failed test in the later "Block2". -/
theorem wheat_first_violation_cex :
    (generate_wheat_report wheatTwoViolations).map (fun r => r.output) =
      some "Wheat failed test in block Block2"
    ∧ (generate_wheat_report wheatTwoViolations).map (fun r => r.output) ≠
      some "Wheat caused error in block Block1" :=
  ⟨rfl, by decide⟩

/-- C3 amended: on a `Success` wheat the reported reason gives failed tests
priority over errored blocks regardless of declaration order — the first
failed test in scan order is reported if any test failed, and the first
errored block is reported only when no test failed. -/
theorem wheat_reason_tests_priority (w : Evaluation) (blocks : List TestBlock)
    (h : w.result = Result.Ok blocks) :
    (∀ p rest, blocks.flatMap blockInvalidTests = p :: rest →
      (generate_wheat_report w).map (fun r => r.output) =
        some ("Wheat failed test in block " ++ p.2)
      ∧ (generate_wheat_report w).map (fun r => r.score) = some 0)
    ∧ (∀ p rest, blocks.flatMap blockInvalidTests = [] →
        blocks.flatMap blockInvalidBlocks = p :: rest →
      (generate_wheat_report w).map (fun r => r.output) =
        some ("Wheat caused error in block " ++ p.2)
      ∧ (generate_wheat_report w).map (fun r => r.score) = some 0) := by
  constructor
  · intro p rest ht
    have hinv : get_invalid_tests_and_blocks w =
        some (p :: rest, blocks.flatMap blockInvalidBlocks) := by
      simp [get_invalid_tests_and_blocks, h, ht]
    simp [generate_wheat_report, hinv, h]
  · intro p rest ht hb
    have hinv : get_invalid_tests_and_blocks w = some ([], p :: rest) := by
      simp [get_invalid_tests_and_blocks, h, ht, hb]
    simp [generate_wheat_report, hinv, h]

/-- Witness for the amended C3 at the concrete two-violation wheat. -/
theorem wheat_reason_tests_priority_witness :
    (generate_wheat_report wheatTwoViolations).map (fun r => r.output) =
      some ("Wheat failed test in block " ++ "Block2")
    ∧ (generate_wheat_report wheatTwoViolations).map (fun r => r.score) = some 0 :=
  (wheat_reason_tests_priority wheatTwoViolations
      [⟨"Block1", "t.arr:1:0-2:0", true, []⟩,
       ⟨"Block2", "t.arr:3:0-9:0", false, [⟨"t.arr:4:0-5:0", false⟩]⟩] rfl).1
    (none, "Block2") [] (by decide)

/-- The chaff test scan finds nothing when every failed test is masked. -/
theorem findCatchInTests_eq_none (ts : Finset (Option String)) (bname : String)
    (tests : List Test)
    (h : ∀ t ∈ tests, t.passed = false → get_loc_name t.loc ∈ ts) :
    findCatchInTests ts bname tests = none := by
  induction tests with
  | nil => rfl
  | cons t rest ih =>
    simp only [findCatchInTests]
    rw [if_neg]
    · exact ih (fun x hx => h x (List.mem_cons_of_mem t hx))
    · rintro ⟨hp, hnot⟩
      exact hnot (h t (List.mem_cons_self t rest) hp)

/-- The chaff block scan finds nothing when every errored block and every
failed test is masked. -/
theorem findCatchInBlocks_eq_none (ts bs : Finset (Option String))
    (blocks : List TestBlock)
    (hb : ∀ b ∈ blocks, b.error = true → get_loc_name b.loc ∈ bs)
    (ht : ∀ b ∈ blocks, ∀ t ∈ b.tests, t.passed = false → get_loc_name t.loc ∈ ts) :
    findCatchInBlocks ts bs blocks = none := by
  induction blocks with
  | nil => rfl
  | cons b rest ih =>
    simp only [findCatchInBlocks]
    rw [if_neg]
    · rw [findCatchInTests_eq_none ts b.name b.tests
        (fun t htmem => ht b (List.mem_cons_self b rest) t htmem)]
      exact ih (fun x hx hxe => hb x (List.mem_cons_of_mem b hx) hxe)
        (fun x hx => ht x (List.mem_cons_of_mem b hx))
    · rintro ⟨he, hnot⟩
      exact hnot (hb b (List.mem_cons_self b rest) he)

/-- C1: a successful chaff whose only violations (errored blocks, failed
tests) lie at locations already in the invalidity registry built from the
wheats is not caught: score 0 with message "Chaff not caught.". -/
theorem chaff_masked_not_caught (wheats : List Evaluation) (chaff : Evaluation)
    (blocks : List TestBlock) (h : chaff.result = Result.Ok blocks)
    (hb : ∀ b ∈ blocks, b.error = true → get_loc_name b.loc ∈ all_invalid_blocks wheats)
    (ht : ∀ b ∈ blocks, ∀ t ∈ b.tests, t.passed = false →
      get_loc_name t.loc ∈ all_invalid_tests wheats) :
    generate_chaff_report wheats chaff =
      { name := get_file_name chaff.code, score := 0, max_score := 1,
        output := "Chaff not caught.", visibility := "after_published" } := by
  have hfind := findCatchInBlocks_eq_none (all_invalid_tests wheats)
    (all_invalid_blocks wheats) blocks hb ht
  simp [generate_chaff_report, h, hfind]

/-- Witness for C1: scenario C — the chaff failing only at the location the
scenario-B wheat masked is not caught. -/
theorem chaff_masked_not_caught_witness :
    generate_chaff_report [wheatB] chaffC =
      { name := get_file_name "docdiff-chaff.arr", score := 0, max_score := 1,
        output := "Chaff not caught.", visibility := "after_published" } :=
  chaff_masked_not_caught [wheatB] chaffC
    [⟨"Block1", "t.arr:1:0-5:0", false, [⟨"t.arr:3:0-4:0", false⟩]⟩] rfl
    (by decide) (by decide)

/-- Membership in the union fold that builds the registry sets. -/
theorem mem_foldl_union (f : Evaluation → Finset (Option String))
    (ws : List Evaluation) (s : Finset (Option String)) (x : Option String) :
    x ∈ ws.foldl (fun acc w => acc ∪ f w) s ↔ x ∈ s ∨ ∃ w ∈ ws, x ∈ f w := by
  induction ws generalizing s with
  | nil => simp
  | cons a ws ih =>
    simp only [List.foldl_cons, ih, Finset.mem_union, List.mem_cons]
    constructor
    · rintro ((hs | hf) | ⟨w, hw, hx⟩)
      · exact Or.inl hs
      · exact Or.inr ⟨a, Or.inl rfl, hf⟩
      · exact Or.inr ⟨w, Or.inr hw, hx⟩
    · rintro (hs | ⟨w, rfl | hw, hx⟩)
      · exact Or.inl (Or.inl hs)
      · exact Or.inl (Or.inr hx)
      · exact Or.inr ⟨w, hw, hx⟩

/-- The invalid-test registry is the union of per-wheat contributions. -/
theorem mem_all_invalid_tests (ws : List Evaluation) (x : Option String) :
    x ∈ all_invalid_tests ws ↔ ∃ w ∈ ws, x ∈ wheatInvalidTestLocs w := by
  simpa using mem_foldl_union wheatInvalidTestLocs ws ∅ x

/-- The invalid-block registry is the union of per-wheat contributions. -/
theorem mem_all_invalid_blocks (ws : List Evaluation) (x : Option String) :
    x ∈ all_invalid_blocks ws ↔ ∃ w ∈ ws, x ∈ wheatInvalidBlockLocs w := by
  simpa using mem_foldl_union wheatInvalidBlockLocs ws ∅ x

/-- A wheat whose run failed contributes nothing to either registry set. -/
theorem err_contrib_empty (w : Evaluation) (e : Err) (hr : w.result = Result.Err e) :
    wheatInvalidTestLocs w = ∅ ∧ wheatInvalidBlockLocs w = ∅ := by
  have hinv : get_invalid_tests_and_blocks w = some ([], []) := by
    simp [get_invalid_tests_and_blocks, hr]
  constructor <;> simp [wheatInvalidTestLocs, wheatInvalidBlockLocs, hinv]

/-- C6: the invalidity registry is a set union of per-wheat contributions,
invariant under permutation of the wheat list, and a `Failure` wheat
contributes no locations. -/
theorem registry_union_perm_invariant (W V : List Evaluation) (hperm : W.Perm V) :
    (all_invalid_tests W = all_invalid_tests V
      ∧ all_invalid_blocks W = all_invalid_blocks V)
    ∧ (∀ x, x ∈ all_invalid_tests W ↔ ∃ w ∈ W, x ∈ wheatInvalidTestLocs w)
    ∧ (∀ x, x ∈ all_invalid_blocks W ↔ ∃ w ∈ W, x ∈ wheatInvalidBlockLocs w)
    ∧ (∀ (w : Evaluation) (T : List Evaluation) (e : Err), w.result = Result.Err e →
        all_invalid_tests (w :: T) = all_invalid_tests T
        ∧ all_invalid_blocks (w :: T) = all_invalid_blocks T) := by
  refine ⟨⟨?_, ?_⟩, fun x => mem_all_invalid_tests W x,
    fun x => mem_all_invalid_blocks W x, ?_⟩
  · ext x
    rw [mem_all_invalid_tests, mem_all_invalid_tests]
    constructor
    · rintro ⟨w, hw, hx⟩
      exact ⟨w, hperm.mem_iff.mp hw, hx⟩
    · rintro ⟨w, hw, hx⟩
      exact ⟨w, hperm.mem_iff.mpr hw, hx⟩
  · ext x
    rw [mem_all_invalid_blocks, mem_all_invalid_blocks]
    constructor
    · rintro ⟨w, hw, hx⟩
      exact ⟨w, hperm.mem_iff.mp hw, hx⟩
    · rintro ⟨w, hw, hx⟩
      exact ⟨w, hperm.mem_iff.mpr hw, hx⟩
  · intro w T e hr
    obtain ⟨h1, h2⟩ := err_contrib_empty w e hr
    constructor
    · simp [all_invalid_tests, h1]
    · simp [all_invalid_blocks, h2]

/-- Witness for C6 at a concrete two-wheat swap. -/
theorem registry_union_perm_invariant_witness :
    all_invalid_tests [wheatB, wheatA] = all_invalid_tests [wheatA, wheatB]
    ∧ all_invalid_blocks [wheatB, wheatA] = all_invalid_blocks [wheatA, wheatB] :=
  (registry_union_perm_invariant [wheatB, wheatA] [wheatA, wheatB]
    (List.Perm.swap wheatA wheatB [])).1

/-- C4 counterexample: with one functionality submission and one wheat, the
final report lists the functionality block item before the wheat item, so the
wheat items do not come first. -/
theorem report_assembly_order_cex :
    (main_report [funcEval, wheatA] [] []).map
        (fun rep => rep.tests.map (fun r => r.name)) =
      some ["BlockF", "simple-wheat.arr", "Functionality score",
            "Wheats score", "Chaffs score"]
    ∧ (main_report [funcEval, wheatA] [] []).map
        (fun rep => rep.tests.map (fun r => r.name)) ≠
      some ["simple-wheat.arr", "BlockF", "Functionality score",
            "Wheats score", "Chaffs score"] :=
  ⟨rfl, by decide⟩

/-- C4 amended: the final report's tests are ordered functionality block
items first (per submission, in order), then wheat items, then chaff items,
then the TA summaries (one functionality summary per functionality
submission, the wheat summary, the chaff summary). -/
theorem report_assembly_order (results : List Evaluation)
    (fp tp : List (String × Int)) :
    main_report results fp tp = some (generate_overall_report (
      ((partition_results results).1.map generate_functionality_report).flatten
      ++ (partition_results results).2.1.map wheat_report_total
      ++ (partition_results results).2.2.map
          (generate_chaff_report (partition_results results).2.1)
      ++ (((partition_results results).1.map generate_functionality_report).map
            (fun report => generate_score_report report fp "Functionality score")
          ++ [generate_score_report
                ((partition_results results).2.1.map wheat_report_total) tp
                "Wheats score",
              generate_score_report
                ((partition_results results).2.2.map
                  (generate_chaff_report (partition_results results).2.1)) tp
                "Chaffs score"]))) := by
  simp [main_report, wheat_reports_of_eq, List.append_assoc]
